import Mathlib

/-
Shallow embedding of the SaaS-Bench Databricks simulation core:
`src/saas_bench/domains/databricks/state.py` (entity records),
`src/saas_bench/domains/databricks/tools.py` (pure tool functions),
`src/saas_bench/domains/databricks/policy.py` (policy checks),
`src/saas_bench/core/environment.py` (dispatch / history), and
`src/saas_bench/core/evaluation.py` (goal-state evaluation).

Python dicts are modelled as association lists in insertion order
(`Dict`), matching `{**d, k: v}` update semantics (replace in place when
the key exists, append otherwise).  Non-determinism (uuid4 identifiers,
`datetime.now` timestamps) is made explicit through a `Gen` record passed
to the tools that consume it.  JSON-ish argument values use `Value`.
-/

namespace SaaSBench

/-- Association-list model of a Python `dict` in insertion order. -/
abbrev Dict (α : Type) := List (String × α)

/-- Python `d.get(k)`: first binding of `k`, if any. -/
def dlookup {α : Type} : Dict α → String → Option α
  | [], _ => none
  | (k2, v) :: rest, k => if k2 = k then some v else dlookup rest k

/-- Python `k in d`. -/
def dmem {α : Type} (d : Dict α) (k : String) : Bool :=
  (dlookup d k).isSome

/-- Python `{**d, k: v}`: replace the binding of `k` in place, else append. -/
def dinsert {α : Type} : Dict α → String → α → Dict α
  | [], k, v => [(k, v)]
  | (k2, v2) :: rest, k, v =>
      if k2 = k then (k, v) :: rest else (k2, v2) :: dinsert rest k v

/-- JSON-ish scalar value occurring in argument dicts and table rows. -/
inductive Value where
  | vStr (s : String)
  | vInt (n : Int)
  | vBool (b : Bool)
  | vNull
deriving DecidableEq

/-- A table row record: `dict(zip(column_names, row))`. -/
abbrev RowRec := Dict Value

/-- Python `dict(pairs)`: left-to-right insertion, later duplicates override. -/
def dictOf (ps : List (String × Value)) : RowRec :=
  ps.foldl (fun d p => dinsert d p.1 p.2) []

/-- Python truthiness of an optional string: `not x` holds for a missing
key and for the empty string. -/
def isBlank : Option String → Bool
  | none => true
  | some s => s = ""

/-- Explicit source of the non-deterministic inputs of the tools:
`datetime.now()` timestamps and `uuid.uuid4()` fresh identifiers. -/
structure Gen where
  now : Nat
  fresh : String
deriving DecidableEq

/-! ## Entity records (`state.py`) -/

structure Column where
  name : String
  type : String
  nullable : Bool := true
  comment : Option String := none
deriving DecidableEq

structure Catalog where
  name : String
  owner : String
  comment : Option String := none
  properties : Dict String := []
  created_at : Nat := 0
deriving DecidableEq

structure Schema where
  catalog_name : String
  schema_name : String
  owner : String
  comment : Option String := none
  created_at : Nat := 0
deriving DecidableEq

structure Table where
  catalog_name : String
  schema_name : String
  table_name : String
  columns : List Column
  data : List RowRec := []
  owner : String
  created_at : Nat := 0
deriving DecidableEq

structure Notebook where
  path : String
  language : String
  cells : List String := []
  attached_cluster_id : Option String := none
  created_at : Nat := 0
deriving DecidableEq

structure Cluster where
  cluster_id : String
  name : String
  state : String
  node_type : String
  num_workers : Int
  spark_version : String
  created_at : Nat := 0
deriving DecidableEq

structure Job where
  job_id : String
  name : String
  schedule : Option String := none
  tasks : List RowRec := []
  created_at : Nat := 0
deriving DecidableEq

structure Permission where
  principal : String
  privilege : String
  securable_type : String
  securable_name : String
deriving DecidableEq

/-- Root state container for the Databricks workspace. -/
structure DatabricksState where
  catalogs : Dict Catalog := []
  schemas : Dict Schema := []
  tables : Dict Table := []
  notebooks : Dict Notebook := []
  clusters : Dict Cluster := []
  jobs : Dict Job := []
  permissions : List Permission := []
  active_catalog : Option String := none
deriving DecidableEq

/-- Source method `DatabricksState.get_schema_key`. -/
def getSchemaKey (catalog_name schema_name : String) : String :=
  catalog_name ++ "." ++ schema_name

/-- Source method `DatabricksState.get_table_key`. -/
def getTableKey (catalog_name schema_name table_name : String) : String :=
  catalog_name ++ "." ++ schema_name ++ "." ++ table_name

/-! ## Response payloads (`tools.py`)

Each constructor mirrors the exact response dict one tool returns. -/

/-- Summary dict produced by `list_catalogs`. -/
structure CatalogInfo where
  name : String
  owner : String
  comment : Option String
deriving DecidableEq

/-- Summary dict produced by `list_schemas`. -/
structure SchemaInfo where
  catalog_name : String
  schema_name : String
  owner : String
  comment : Option String
deriving DecidableEq

/-- Summary dict produced by `list_tables`. -/
structure TableInfo where
  catalog_name : String
  schema_name : String
  table_name : String
  owner : String
  column_count : Nat
deriving DecidableEq

/-- Summary dict produced by `list_notebooks`. -/
structure NotebookInfo where
  path : String
  language : String
  cell_count : Nat
  attached_cluster : Option String
deriving DecidableEq

/-- Summary dict produced by `list_clusters`. -/
structure ClusterInfo where
  cluster_id : String
  name : String
  state : String
  node_type : String
  num_workers : Int
deriving DecidableEq

/-- Summary dict produced by `list_jobs`. -/
structure JobInfo where
  job_id : String
  name : String
  schedule : Option String
  task_count : Nat
deriving DecidableEq

/-- The response dict of a tool call, one constructor per dict shape. -/
inductive Response where
  | error (msg : String)
  | okActive (active_catalog : String)
  | listCatalogs (catalogs : List CatalogInfo)
  | okCatalog (catalog : String)
  | listSchemas (schemas : List SchemaInfo)
  | okSchema (schema : String)
  | listTables (tables : List TableInfo)
  | okTable (table : String)
  | okInsert (rows_inserted : Nat)
  | queryResult (results : List RowRec) (row_count : Nat)
  | okGrant (permission : String)
  | okRevoke
  | okNotebook (notebook : String)
  | listNotebooks (notebooks : List NotebookInfo)
  | okCellExecuted
  | okVisualization
  | listClusters (clusters : List ClusterInfo)
  | okCluster (cluster_id : String)
  | okAttached
  | listJobs (jobs : List JobInfo)
  | okJob (job_id : String)
deriving DecidableEq

/-- Whether a response is the `{"error": ...}` shape. -/
def isError : Response → Bool
  | .error _ => true
  | _ => false

/-! ## Argument dicts, one typed record per tool

An `Option` field distinguishes a missing key (`none`) from a present
value; `args.get(k, default)` becomes `getD`.  List-valued arguments with
default `[]` are plain lists (missing key means `[]`, matching both the
Python default and its truthiness check). -/

structure UseCatalogArgs where
  catalog_name : Option String := none
deriving DecidableEq

structure CreateCatalogArgs where
  catalog_name : Option String := none
  owner : Option String := none
  /-- `args.get("type")`: read by the tool but silently dropped, since
  `Catalog` has no such field (pydantic ignores the extra kwarg). -/
  type : Option String := none
  comment : Option String := none
deriving DecidableEq

structure ListSchemasArgs where
  catalog_name : Option String := none
deriving DecidableEq

structure CreateSchemaArgs where
  catalog_name : Option String := none
  schema_name : Option String := none
  owner : Option String := none
  comment : Option String := none
deriving DecidableEq

structure ListTablesArgs where
  catalog_name : Option String := none
  schema_name : Option String := none
deriving DecidableEq

/-- A raw column spec dict handed to `create_table`. -/
structure ColumnSpec where
  name : String
  type : Option String := none
  nullable : Option Bool := none
  comment : Option String := none
deriving DecidableEq

structure CreateTableArgs where
  catalog_name : Option String := none
  schema_name : Option String := none
  table_name : Option String := none
  columns : List ColumnSpec := []
  owner : Option String := none
deriving DecidableEq

structure InsertIntoTableArgs where
  catalog_name : Option String := none
  schema_name : Option String := none
  table_name : Option String := none
  rows : List (List Value) := []
deriving DecidableEq

structure QueryTableArgs where
  catalog_name : Option String := none
  schema_name : Option String := none
  table_name : Option String := none
  query : Option String := none
deriving DecidableEq

structure GrantPrivilegeArgs where
  privilege : Option String := none
  securable_type : Option String := none
  securable_name : Option String := none
  principal : Option String := none
deriving DecidableEq

structure RevokePrivilegeArgs where
  privilege : Option String := none
  securable_name : Option String := none
  principal : Option String := none
deriving DecidableEq

structure CreateNotebookArgs where
  path : Option String := none
  language : Option String := none
deriving DecidableEq

structure RunNotebookCellArgs where
  notebook_path : Option String := none
  cell_content : Option String := none
deriving DecidableEq

structure CreateVisualizationArgs where
  notebook_path : Option String := none
  visualization_type : Option String := none
  x_column : Option String := none
  y_column : Option String := none
  group_by : Option String := none
deriving DecidableEq

structure CreateClusterArgs where
  name : Option String := none
  node_type : Option String := none
  num_workers : Option Int := none
  spark_version : Option String := none
deriving DecidableEq

structure AttachToClusterArgs where
  notebook_path : Option String := none
  cluster_id : Option String := none
deriving DecidableEq

structure CreateJobArgs where
  name : Option String := none
  schedule : Option String := none
  tasks : List RowRec := []
deriving DecidableEq

/-! ## Tool functions (`tools.py`)

Each is the pure function `(state, args) -> (new_state, response)` of the
source; the tools that call `datetime.now()` / `uuid.uuid4()` take the
`Gen` record as an explicit extra input.  Error-message apostrophes are
written `\x27`. -/

def use_catalog (s : DatabricksState) (a : UseCatalogArgs) :
    DatabricksState × Response :=
  if isBlank a.catalog_name then (s, .error "catalog_name is required")
  else
    let catalog_name := a.catalog_name.getD ""
    if dmem s.catalogs catalog_name = false then
      (s, .error ("Catalog \x27" ++ catalog_name ++ "\x27 does not exist"))
    else
      ({ s with active_catalog := some catalog_name }, .okActive catalog_name)

def list_catalogs (s : DatabricksState) : DatabricksState × Response :=
  (s, .listCatalogs (s.catalogs.map (fun p =>
    { name := p.2.name, owner := p.2.owner, comment := p.2.comment })))

def create_catalog (g : Gen) (s : DatabricksState) (a : CreateCatalogArgs) :
    DatabricksState × Response :=
  if isBlank a.catalog_name then (s, .error "catalog_name is required")
  else
    let catalog_name := a.catalog_name.getD ""
    if dmem s.catalogs catalog_name then
      (s, .error ("Catalog \x27" ++ catalog_name ++ "\x27 already exists"))
    else
      let new_catalog : Catalog :=
        { name := catalog_name, owner := a.owner.getD "admin",
          comment := a.comment, created_at := g.now }
      ({ s with catalogs := dinsert s.catalogs catalog_name new_catalog },
       .okCatalog catalog_name)

def list_schemas (s : DatabricksState) (a : ListSchemasArgs) :
    DatabricksState × Response :=
  if isBlank a.catalog_name then (s, .error "catalog_name is required")
  else
    let catalog_name := a.catalog_name.getD ""
    if dmem s.catalogs catalog_name = false then
      (s, .error ("Catalog \x27" ++ catalog_name ++ "\x27 does not exist"))
    else
      (s, .listSchemas ((s.schemas.filter
          (fun p => p.2.catalog_name == catalog_name)).map (fun p =>
        { catalog_name := p.2.catalog_name, schema_name := p.2.schema_name,
          owner := p.2.owner, comment := p.2.comment })))

def create_schema (g : Gen) (s : DatabricksState) (a : CreateSchemaArgs) :
    DatabricksState × Response :=
  if isBlank a.catalog_name || isBlank a.schema_name then
    (s, .error "catalog_name and schema_name are required")
  else
    let catalog_name := a.catalog_name.getD ""
    let schema_name := a.schema_name.getD ""
    if dmem s.catalogs catalog_name = false then
      (s, .error ("Catalog \x27" ++ catalog_name ++ "\x27 does not exist"))
    else
      let schema_key := getSchemaKey catalog_name schema_name
      if dmem s.schemas schema_key then
        (s, .error ("Schema \x27" ++ schema_key ++ "\x27 already exists"))
      else
        let new_schema : Schema :=
          { catalog_name, schema_name, owner := a.owner.getD "admin",
            comment := a.comment, created_at := g.now }
        ({ s with schemas := dinsert s.schemas schema_key new_schema },
         .okSchema schema_key)

def list_tables (s : DatabricksState) (a : ListTablesArgs) :
    DatabricksState × Response :=
  if isBlank a.catalog_name || isBlank a.schema_name then
    (s, .error "catalog_name and schema_name are required")
  else
    let catalog_name := a.catalog_name.getD ""
    let schema_name := a.schema_name.getD ""
    let schema_key := getSchemaKey catalog_name schema_name
    if dmem s.schemas schema_key = false then
      (s, .error ("Schema \x27" ++ schema_key ++ "\x27 does not exist"))
    else
      (s, .listTables ((s.tables.filter (fun p =>
          p.2.catalog_name == catalog_name &&
          p.2.schema_name == schema_name)).map (fun p =>
        { catalog_name := p.2.catalog_name, schema_name := p.2.schema_name,
          table_name := p.2.table_name, owner := p.2.owner,
          column_count := p.2.columns.length })))

def create_table (g : Gen) (s : DatabricksState) (a : CreateTableArgs) :
    DatabricksState × Response :=
  if isBlank a.catalog_name || isBlank a.schema_name ||
      isBlank a.table_name then
    (s, .error "catalog_name, schema_name, and table_name are required")
  else
    let catalog_name := a.catalog_name.getD ""
    let schema_name := a.schema_name.getD ""
    let table_name := a.table_name.getD ""
    let schema_key := getSchemaKey catalog_name schema_name
    if dmem s.schemas schema_key = false then
      (s, .error ("Schema \x27" ++ schema_key ++ "\x27 does not exist"))
    else
      let table_key := getTableKey catalog_name schema_name table_name
      if dmem s.tables table_key then
        (s, .error ("Table \x27" ++ table_key ++ "\x27 already exists"))
      else
        let column_objects : List Column := a.columns.map (fun col =>
          { name := col.name, type := col.type.getD "STRING",
            nullable := col.nullable.getD true, comment := col.comment })
        let new_table : Table :=
          { catalog_name, schema_name, table_name, columns := column_objects,
            owner := a.owner.getD "admin", created_at := g.now }
        ({ s with tables := dinsert s.tables table_key new_table },
         .okTable table_key)

/-- The row-conversion loop of `insert_into_table`: rows are converted in
order; the first row whose arity differs from the column count aborts the
whole call (its length is reported in the error message). -/
def buildRows (column_names : List String) :
    List (List Value) → Except Nat (List RowRec)
  | [] => .ok []
  | row :: rest =>
      if row.length ≠ column_names.length then .error row.length
      else
        match buildRows column_names rest with
        | .error n => .error n
        | .ok rs => .ok (dictOf (column_names.zip row) :: rs)

def insert_into_table (s : DatabricksState) (a : InsertIntoTableArgs) :
    DatabricksState × Response :=
  if isBlank a.catalog_name || isBlank a.schema_name ||
      isBlank a.table_name then
    (s, .error "catalog_name, schema_name, and table_name are required")
  else
    let catalog_name := a.catalog_name.getD ""
    let schema_name := a.schema_name.getD ""
    let table_name := a.table_name.getD ""
    let table_key := getTableKey catalog_name schema_name table_name
    match dlookup s.tables table_key with
    | none => (s, .error ("Table \x27" ++ table_key ++ "\x27 does not exist"))
    | some table =>
        if a.rows.isEmpty then (s, .error "No rows provided")
        else
          let column_names := table.columns.map Column.name
          match buildRows column_names a.rows with
          | .error n =>
              (s, .error ("Row has " ++ toString n ++
                " values but table has " ++ toString column_names.length ++
                " columns"))
          | .ok new_rows =>
              let updated_table := { table with data := table.data ++ new_rows }
              ({ s with tables := dinsert s.tables table_key updated_table },
               .okInsert new_rows.length)

def query_table (s : DatabricksState) (a : QueryTableArgs) :
    DatabricksState × Response :=
  if isBlank a.catalog_name || isBlank a.schema_name ||
      isBlank a.table_name then
    (s, .error "catalog_name, schema_name, and table_name are required")
  else
    let catalog_name := a.catalog_name.getD ""
    let schema_name := a.schema_name.getD ""
    let table_name := a.table_name.getD ""
    let table_key := getTableKey catalog_name schema_name table_name
    match dlookup s.tables table_key with
    | none => (s, .error ("Table \x27" ++ table_key ++ "\x27 does not exist"))
    | some table =>
        -- The optional `query` argument is read but never applied in the
        -- source (`if query: pass`); the full row list is always returned.
        (s, .queryResult table.data table.data.length)

/-- The 3-tuple comparison both permission tools use: `securable_type`
deliberately does not participate. -/
def matchesPerm (principal securable_name privilege : String)
    (p : Permission) : Bool :=
  p.principal == principal && p.securable_name == securable_name &&
  p.privilege == privilege

def grant_privilege (s : DatabricksState) (a : GrantPrivilegeArgs) :
    DatabricksState × Response :=
  if isBlank a.privilege || isBlank a.securable_type ||
      isBlank a.securable_name || isBlank a.principal then
    (s, .error
      "privilege, securable_type, securable_name, and principal are required")
  else
    let privilege := a.privilege.getD ""
    let securable_type := a.securable_type.getD ""
    let securable_name := a.securable_name.getD ""
    let principal := a.principal.getD ""
    if s.permissions.any (matchesPerm principal securable_name privilege) then
      (s, .error "Permission already granted")
    else
      let new_permission : Permission :=
        { principal, privilege, securable_type, securable_name }
      ({ s with permissions := s.permissions ++ [new_permission] },
       .okGrant (privilege ++ " on " ++ securable_name ++ " to " ++ principal))

def revoke_privilege (s : DatabricksState) (a : RevokePrivilegeArgs) :
    DatabricksState × Response :=
  if isBlank a.privilege || isBlank a.securable_name ||
      isBlank a.principal then
    (s, .error "privilege, securable_name, and principal are required")
  else
    let privilege := a.privilege.getD ""
    let securable_name := a.securable_name.getD ""
    let principal := a.principal.getD ""
    let new_permissions := s.permissions.filter (fun p =>
      !(matchesPerm principal securable_name privilege p))
    if new_permissions.length = s.permissions.length then
      (s, .error "Permission not found")
    else
      ({ s with permissions := new_permissions }, .okRevoke)

def create_notebook (g : Gen) (s : DatabricksState) (a : CreateNotebookArgs) :
    DatabricksState × Response :=
  if isBlank a.path then (s, .error "path is required")
  else
    let path := a.path.getD ""
    if dmem s.notebooks path then
      (s, .error ("Notebook \x27" ++ path ++ "\x27 already exists"))
    else
      let new_notebook : Notebook :=
        { path, language := a.language.getD "python", created_at := g.now }
      ({ s with notebooks := dinsert s.notebooks path new_notebook },
       .okNotebook path)

def list_notebooks (s : DatabricksState) : DatabricksState × Response :=
  (s, .listNotebooks (s.notebooks.map (fun p =>
    { path := p.2.path, language := p.2.language,
      cell_count := p.2.cells.length,
      attached_cluster := p.2.attached_cluster_id })))

def run_notebook_cell (s : DatabricksState) (a : RunNotebookCellArgs) :
    DatabricksState × Response :=
  if isBlank a.notebook_path || isBlank a.cell_content then
    (s, .error "notebook_path and cell_content are required")
  else
    let notebook_path := a.notebook_path.getD ""
    let cell_content := a.cell_content.getD ""
    match dlookup s.notebooks notebook_path with
    | none =>
        (s, .error ("Notebook \x27" ++ notebook_path ++ "\x27 does not exist"))
    | some notebook =>
        let updated_notebook :=
          { notebook with cells := notebook.cells ++ [cell_content] }
        ({ s with notebooks :=
            dinsert s.notebooks notebook_path updated_notebook },
         .okCellExecuted)

/-- Python `f"{x}"` applied to an optional string (`None` prints as the
string `None`). -/
def pyShow : Option String → String
  | none => "None"
  | some v => v

def create_visualization (s : DatabricksState)
    (a : CreateVisualizationArgs) : DatabricksState × Response :=
  if isBlank a.notebook_path then (s, .error "notebook_path is required")
  else
    let notebook_path := a.notebook_path.getD ""
    match dlookup s.notebooks notebook_path with
    | none =>
        (s, .error ("Notebook \x27" ++ notebook_path ++ "\x27 does not exist"))
    | some notebook =>
        let viz_cell :=
          "VISUALIZATION: type=" ++ a.visualization_type.getD "bar" ++
          ", x=" ++ pyShow a.x_column ++ ", y=" ++ pyShow a.y_column ++
          ", group_by=" ++ pyShow a.group_by
        let updated_notebook :=
          { notebook with cells := notebook.cells ++ [viz_cell] }
        ({ s with notebooks :=
            dinsert s.notebooks notebook_path updated_notebook },
         .okVisualization)

def list_clusters (s : DatabricksState) : DatabricksState × Response :=
  (s, .listClusters (s.clusters.map (fun p =>
    { cluster_id := p.2.cluster_id, name := p.2.name, state := p.2.state,
      node_type := p.2.node_type, num_workers := p.2.num_workers })))

def create_cluster (g : Gen) (s : DatabricksState) (a : CreateClusterArgs) :
    DatabricksState × Response :=
  if isBlank a.name then (s, .error "name is required")
  else
    let name := a.name.getD ""
    let cluster_id := g.fresh
    let new_cluster : Cluster :=
      { cluster_id, name, state := "RUNNING",
        node_type := a.node_type.getD "i3.xlarge",
        num_workers := a.num_workers.getD 1,
        spark_version := a.spark_version.getD "13.3.x-scala2.12",
        created_at := g.now }
    ({ s with clusters := dinsert s.clusters cluster_id new_cluster },
     .okCluster cluster_id)

def attach_to_cluster (s : DatabricksState) (a : AttachToClusterArgs) :
    DatabricksState × Response :=
  if isBlank a.notebook_path || isBlank a.cluster_id then
    (s, .error "notebook_path and cluster_id are required")
  else
    let notebook_path := a.notebook_path.getD ""
    let cluster_id := a.cluster_id.getD ""
    match dlookup s.notebooks notebook_path with
    | none =>
        (s, .error ("Notebook \x27" ++ notebook_path ++ "\x27 does not exist"))
    | some notebook =>
        if dmem s.clusters cluster_id = false then
          (s, .error ("Cluster \x27" ++ cluster_id ++ "\x27 does not exist"))
        else
          let updated_notebook :=
            { notebook with attached_cluster_id := some cluster_id }
          ({ s with notebooks :=
              dinsert s.notebooks notebook_path updated_notebook },
           .okAttached)

def list_jobs (s : DatabricksState) : DatabricksState × Response :=
  (s, .listJobs (s.jobs.map (fun p =>
    { job_id := p.2.job_id, name := p.2.name, schedule := p.2.schedule,
      task_count := p.2.tasks.length })))

def create_job (g : Gen) (s : DatabricksState) (a : CreateJobArgs) :
    DatabricksState × Response :=
  if isBlank a.name then (s, .error "name is required")
  else
    let name := a.name.getD ""
    let job_id := g.fresh
    let new_job : Job :=
      { job_id, name, schedule := a.schedule, tasks := a.tasks,
        created_at := g.now }
    ({ s with jobs := dinsert s.jobs job_id new_job }, .okJob job_id)

/-! ## Policy (`policy.py`) -/

def MAX_CLUSTERS_PER_WORKSPACE : Nat := 100

/-- Source method `Policy.validate_cluster_count`. -/
def validate_cluster_count (s : DatabricksState) : Bool × String :=
  if s.clusters.length ≥ MAX_CLUSTERS_PER_WORKSPACE then
    (false, "Maximum number of clusters (" ++
      toString MAX_CLUSTERS_PER_WORKSPACE ++ ") exceeded")
  else (true, "")

/-! ## Tool registry (`registry.py`)

A call to a registered tool is the tool identifier together with its
argument dict; `toolName` gives the registry key and `runTool` is the
dispatch `TOOL_REGISTRY[name](state, args)`. -/

inductive ToolCall where
  | use_catalog (a : UseCatalogArgs)
  | list_catalogs
  | create_catalog (a : CreateCatalogArgs)
  | list_schemas (a : ListSchemasArgs)
  | create_schema (a : CreateSchemaArgs)
  | list_tables (a : ListTablesArgs)
  | create_table (a : CreateTableArgs)
  | insert_into_table (a : InsertIntoTableArgs)
  | query_table (a : QueryTableArgs)
  | grant_privilege (a : GrantPrivilegeArgs)
  | revoke_privilege (a : RevokePrivilegeArgs)
  | create_notebook (a : CreateNotebookArgs)
  | list_notebooks
  | run_notebook_cell (a : RunNotebookCellArgs)
  | create_visualization (a : CreateVisualizationArgs)
  | list_clusters
  | create_cluster (a : CreateClusterArgs)
  | attach_to_cluster (a : AttachToClusterArgs)
  | list_jobs
  | create_job (a : CreateJobArgs)
deriving DecidableEq

/-- The registry key of a tool call. -/
def toolName : ToolCall → String
  | .use_catalog _ => "use_catalog"
  | .list_catalogs => "list_catalogs"
  | .create_catalog _ => "create_catalog"
  | .list_schemas _ => "list_schemas"
  | .create_schema _ => "create_schema"
  | .list_tables _ => "list_tables"
  | .create_table _ => "create_table"
  | .insert_into_table _ => "insert_into_table"
  | .query_table _ => "query_table"
  | .grant_privilege _ => "grant_privilege"
  | .revoke_privilege _ => "revoke_privilege"
  | .create_notebook _ => "create_notebook"
  | .list_notebooks => "list_notebooks"
  | .run_notebook_cell _ => "run_notebook_cell"
  | .create_visualization _ => "create_visualization"
  | .list_clusters => "list_clusters"
  | .create_cluster _ => "create_cluster"
  | .attach_to_cluster _ => "attach_to_cluster"
  | .list_jobs => "list_jobs"
  | .create_job _ => "create_job"

/-- Registry dispatch: run the named tool on the state and its args. -/
def runTool (g : Gen) (s : DatabricksState) :
    ToolCall → DatabricksState × Response
  | .use_catalog a => use_catalog s a
  | .list_catalogs => list_catalogs s
  | .create_catalog a => create_catalog g s a
  | .list_schemas a => list_schemas s a
  | .create_schema a => create_schema g s a
  | .list_tables a => list_tables s a
  | .create_table a => create_table g s a
  | .insert_into_table a => insert_into_table s a
  | .query_table a => query_table s a
  | .grant_privilege a => grant_privilege s a
  | .revoke_privilege a => revoke_privilege s a
  | .create_notebook a => create_notebook g s a
  | .list_notebooks => list_notebooks s
  | .run_notebook_cell a => run_notebook_cell s a
  | .create_visualization a => create_visualization s a
  | .list_clusters => list_clusters s
  | .create_cluster a => create_cluster g s a
  | .attach_to_cluster a => attach_to_cluster s a
  | .list_jobs => list_jobs s
  | .create_job a => create_job g s a

/-! ## Environment (`environment.py`) -/

/-- One entry of `Environment._conversation_history`. -/
inductive ConvEntry where
  | tool_call (tool : String) (args : ToolCall) (response : Response)
  | user_message (content : String)
  | agent_message (content : String)
deriving DecidableEq

/-- The mutable fields of an `Environment` instance. -/
structure Env where
  state : DatabricksState
  conversation_history : List ConvEntry
  state_snapshots : List DatabricksState
deriving DecidableEq

/-- Source methods `Environment.__init__` / `Environment.reset`. -/
def Env.init (initial_state : DatabricksState) : Env :=
  { state := initial_state, conversation_history := [],
    state_snapshots := [initial_state] }

/-- What `tool_func(self._state, args)` did inside the `try` block:
returned normally, or raised (`exn` carries `str(e)`). -/
inductive ToolOutcome where
  | ok (new_state : DatabricksState) (response : Response)
  | exn (msg : String)

/-- The tail of `Environment.execute_tool` after the registry lookup: the
`except` branch returns the wrapped error without touching any field;
the normal branch replaces the state and appends exactly one snapshot
and one `tool_call` history entry. -/
def dispatchOutcome (env : Env) (name : String) (call : ToolCall) :
    ToolOutcome → Env × Response
  | .exn msg => (env, .error ("Tool execution failed: " ++ msg))
  | .ok new_state response =>
      ({ state := new_state,
         state_snapshots := env.state_snapshots ++ [new_state],
         conversation_history := env.conversation_history ++
           [.tool_call name call response] }, response)

/-- A request to `execute_tool`: either a call to a registered tool, or a
name outside `TOOL_REGISTRY`. -/
inductive ToolRequest where
  | known (c : ToolCall)
  | unknown (name : String)

/-- Source method `Environment.execute_tool` (the registered tools of this module are
total, so the dispatched outcome is always `ok`). -/
def executeTool (g : Gen) (env : Env) : ToolRequest → Env × Response
  | .unknown name => (env, .error ("Unknown tool: " ++ name))
  | .known c =>
      let r := runTool g env.state c
      dispatchOutcome env (toolName c) c (.ok r.1 r.2)

/-! ## Evaluation (`evaluation.py`)

Python `set` iteration order is unspecified; the permission-set
differences below are rendered in first-occurrence order of the
originating permission lists, which fixes a canonical order without
changing which sets are empty. -/

/-- One entry of `differences["incorrect_tables"]` (two dict shapes). -/
inductive IncorrectTable where
  | columnMismatch (table : String) (expected actual : Dict String)
  | insufficientRows (table : String) (expected_rows actual_rows : Nat)
deriving DecidableEq

/-- The `differences["extra_resources"]` payload when non-empty. -/
structure ExtraResources where
  catalogs : List String
  tables : List String
deriving DecidableEq

/-- The `differences` dict (`none` for `extra_resources` is the initial
empty dict). -/
structure Differences where
  missing_catalogs : List String
  missing_schemas : List String
  missing_tables : List String
  missing_notebooks : List String
  missing_permissions : List String
  incorrect_tables : List IncorrectTable
  extra_resources : Option ExtraResources
deriving DecidableEq

/-- Record `EvaluationResult`; the score is documented in the source as
`score: float  # 0.0-1.0` and is modelled exactly as a rational. -/
structure EvaluationResult where
  success : Bool
  score : ℚ
  milestones_achieved : List String
  minefields_triggered : List String
  differences : Differences
deriving DecidableEq

/-- Python `dict` equality: same keys bound to equal values, order
irrelevant (operands here never carry duplicate keys). -/
def pyDictEq {α : Type} [DecidableEq α] (d1 d2 : Dict α) : Bool :=
  d1.all (fun p => dlookup d2 p.1 == some p.2) &&
  d2.all (fun p => dlookup d1 p.1 == some p.2)

/-- Python `{col.name: col for col in cols}`. -/
def colDict (cols : List Column) : Dict Column :=
  cols.foldl (fun d c => dinsert d c.name c) []

/-- Python `{name: col.type for name, col in d.items()}`. -/
def colTypes (d : Dict Column) : Dict String :=
  d.map (fun p => (p.1, p.2.type))

/-- The body of the per-goal-table loop of `evaluate_task`: returns the
`missing_tables` entries, `incorrect_tables` entries and milestones this
goal table contributes. -/
def checkTable (final_state : DatabricksState) (table_key : String)
    (goal_table : Table) :
    List String × List IncorrectTable × List String :=
  match dlookup final_state.tables table_key with
  | none => ([table_key], [], [])
  | some final_table =>
      let goal_columns := colDict goal_table.columns
      let final_columns := colDict final_table.columns
      let schemaPart : List IncorrectTable × List String :=
        if pyDictEq goal_columns final_columns = false then
          ([.columnMismatch table_key (colTypes goal_columns)
              (colTypes final_columns)], [])
        else
          ([], ["Table \x27" ++ table_key ++
            "\x27 created with correct schema"])
      let dataPart : List IncorrectTable × List String :=
        if goal_table.data.isEmpty then ([], [])
        else if final_table.data.length < goal_table.data.length then
          ([.insufficientRows table_key goal_table.data.length
              final_table.data.length], [])
        else ([], ["Table \x27" ++ table_key ++ "\x27 has data inserted"])
      ([], schemaPart.1 ++ dataPart.1, schemaPart.2 ++ dataPart.2)

/-- The `(p.principal, p.privilege, p.securable_name)` tuple used for
permission-set comparison. -/
def permTuple (p : Permission) : String × String × String :=
  (p.principal, p.privilege, p.securable_name)

/-- Render one missing-permission tuple. -/
def renderMissingPerm (t : String × String × String) : String :=
  t.1 ++ " - " ++ t.2.1 ++ " on " ++ t.2.2

/-- Render the over-granted permission set for the minefield message. -/
def renderExtraPerms (l : List (String × String × String)) : String :=
  "\x7b" ++ String.intercalate ", " (l.map (fun t =>
    "(\x27" ++ t.1 ++ "\x27, \x27" ++ t.2.1 ++ "\x27, \x27" ++
      t.2.2 ++ "\x27)")) ++ "\x7d"

/-- Source function `evaluate_task(final_state, goal_state)`. -/
def evaluate_task (final_state goal_state : DatabricksState) :
    EvaluationResult :=
  let missing_catalogs := (goal_state.catalogs.filter
    (fun p => !(dmem final_state.catalogs p.1))).map Prod.fst
  let catalogMilestones := goal_state.catalogs.filterMap (fun p =>
    if dmem final_state.catalogs p.1 then
      some ("Catalog \x27" ++ p.1 ++ "\x27 exists") else none)
  let missing_schemas := (goal_state.schemas.filter
    (fun p => !(dmem final_state.schemas p.1))).map Prod.fst
  let schemaMilestones := goal_state.schemas.filterMap (fun p =>
    if dmem final_state.schemas p.1 then
      some ("Schema \x27" ++ p.1 ++ "\x27 exists") else none)
  let tableChecks := goal_state.tables.map
    (fun p => checkTable final_state p.1 p.2)
  let missing_tables := tableChecks.flatMap (fun t => t.1)
  let incorrect_tables := tableChecks.flatMap (fun t => t.2.1)
  let tableMilestones := tableChecks.flatMap (fun t => t.2.2)
  let missing_notebooks := (goal_state.notebooks.filter
    (fun p => !(dmem final_state.notebooks p.1))).map Prod.fst
  let notebookMilestones := goal_state.notebooks.filterMap (fun p =>
    if dmem final_state.notebooks p.1 then
      some ("Notebook \x27" ++ p.1 ++ "\x27 created") else none)
  let goal_permissions := (goal_state.permissions.map permTuple).dedup
  let final_permissions := (final_state.permissions.map permTuple).dedup
  let missing_perms := goal_permissions.filter
    (fun t => !(final_permissions.contains t))
  let missing_permissions := missing_perms.map renderMissingPerm
  let permMilestones :=
    if missing_perms.isEmpty then ["All required permissions granted"]
    else []
  let extra_catalogs := (final_state.catalogs.map Prod.fst).filter
    (fun k => !(dmem goal_state.catalogs k))
  let extra_tables := (final_state.tables.map Prod.fst).filter
    (fun k => !(dmem goal_state.tables k))
  let extra_resources :=
    if !extra_catalogs.isEmpty || !extra_tables.isEmpty then
      some { catalogs := extra_catalogs, tables := extra_tables }
    else none
  let milestones_achieved := catalogMilestones ++ schemaMilestones ++
    tableMilestones ++ notebookMilestones ++ permMilestones
  let has_missing_resources := !missing_catalogs.isEmpty ||
    !missing_schemas.isEmpty || !missing_tables.isEmpty ||
    !missing_notebooks.isEmpty
  let has_incorrect_tables := !incorrect_tables.isEmpty
  let has_missing_permissions := !missing_permissions.isEmpty
  let success := !(has_missing_resources || has_incorrect_tables ||
    has_missing_permissions)
  let total_checks := goal_state.catalogs.length +
    goal_state.schemas.length + goal_state.tables.length +
    goal_state.notebooks.length + goal_state.permissions.length
  let passed_checks := milestones_achieved.length
  let score : ℚ :=
    if total_checks > 0 then (passed_checks : ℚ) / (total_checks : ℚ)
    else 1
  let extra_perms := final_permissions.filter
    (fun t => !(goal_permissions.contains t))
  let minefields_triggered :=
    if extra_perms.isEmpty then []
    else ["Unexpected permissions granted: " ++ renderExtraPerms extra_perms]
  { success, score, milestones_achieved, minefields_triggered,
    differences :=
      { missing_catalogs, missing_schemas, missing_tables,
        missing_notebooks, missing_permissions, incorrect_tables,
        extra_resources } }

/-! ## Dictionary lemmas -/

theorem dlookup_dinsert_self {α : Type} (d : Dict α) (k : String) (v : α) :
    dlookup (dinsert d k v) k = some v := by
  induction d with
  | nil => simp [dinsert, dlookup]
  | cons p rest ih =>
      by_cases h : p.1 = k
      · simp [dinsert, h, dlookup]
      · simp [dinsert, h, dlookup, ih]

theorem dlookup_dinsert_ne {α : Type} (d : Dict α) {k k2 : String} (v : α)
    (h : k2 ≠ k) : dlookup (dinsert d k v) k2 = dlookup d k2 := by
  have hk : ¬ (k = k2) := fun he => h he.symm
  induction d with
  | nil => simp [dinsert, dlookup, hk]
  | cons p rest ih =>
      obtain ⟨k3, v3⟩ := p
      by_cases hp : k3 = k
      · subst hp
        simp [dinsert, dlookup, hk]
      · by_cases hq : k3 = k2
        · simp [dinsert, hp, dlookup, hq, h]
        · simp [dinsert, hp, dlookup, hq, ih]

theorem dictKeeps_dinsert_fresh {α : Type} {d : Dict α} {k : String}
    (v : α) (h : dmem d k = false) :
    ∀ k2 v2, dlookup d k2 = some v2 → dlookup (dinsert d k v) k2 = some v2 := by
  intro k2 v2 h2
  have hne : k2 ≠ k := by
    intro he
    subst he
    simp [dmem, h2] at h
  rw [dlookup_dinsert_ne d v hne, h2]

theorem dmem_dinsert_of {α : Type} {d : Dict α} {k2 : String}
    (k : String) (v : α) (h : dmem d k2 = true) :
    dmem (dinsert d k v) k2 = true := by
  by_cases he : k2 = k
  · subst he
    simp [dmem, dlookup_dinsert_self]
  · simpa [dmem, dlookup_dinsert_ne d v he] using h

/-- The length of a `filter` equals the original length iff nothing was
dropped (shape used by `revoke_privilege`). -/
theorem length_filter_eq_iff {α : Type} (l : List α) (f : α → Bool) :
    ((l.filter f).length = l.length) ↔ ∀ a ∈ l, f a = true := by
  induction l with
  | nil => simp
  | cons a rest ih =>
      cases hfa : f a with
      | true =>
          simp only [List.filter_cons, hfa, if_true, List.length_cons,
            Nat.add_right_cancel_iff, ih, List.mem_cons]
          constructor
          · intro hall b hb
            rcases hb with rfl | hb2
            · exact hfa
            · exact hall b hb2
          · intro hall b hb
            exact hall b (Or.inr hb)
      | false =>
          have hle := List.length_filter_le f rest
          simp only [List.filter_cons, hfa, Bool.false_eq_true, if_false,
            List.length_cons, List.mem_cons]
          constructor
          · intro hlen
            omega
          · intro hall
            exact absurd (hall a (Or.inl rfl)) (by simp [hfa])

/-! ## Frame properties of the tools (claims C1, C8, C9)

`eqExcept*` names the fields a successful call leaves untouched. -/

def eqExceptActive (s t : DatabricksState) : Prop :=
  t.catalogs = s.catalogs ∧ t.schemas = s.schemas ∧ t.tables = s.tables ∧
  t.notebooks = s.notebooks ∧ t.clusters = s.clusters ∧ t.jobs = s.jobs ∧
  t.permissions = s.permissions

def eqExceptCatalogs (s t : DatabricksState) : Prop :=
  t.schemas = s.schemas ∧ t.tables = s.tables ∧ t.notebooks = s.notebooks ∧
  t.clusters = s.clusters ∧ t.jobs = s.jobs ∧
  t.permissions = s.permissions ∧ t.active_catalog = s.active_catalog

def eqExceptSchemas (s t : DatabricksState) : Prop :=
  t.catalogs = s.catalogs ∧ t.tables = s.tables ∧ t.notebooks = s.notebooks ∧
  t.clusters = s.clusters ∧ t.jobs = s.jobs ∧
  t.permissions = s.permissions ∧ t.active_catalog = s.active_catalog

def eqExceptTables (s t : DatabricksState) : Prop :=
  t.catalogs = s.catalogs ∧ t.schemas = s.schemas ∧
  t.notebooks = s.notebooks ∧ t.clusters = s.clusters ∧ t.jobs = s.jobs ∧
  t.permissions = s.permissions ∧ t.active_catalog = s.active_catalog

def eqExceptNotebooks (s t : DatabricksState) : Prop :=
  t.catalogs = s.catalogs ∧ t.schemas = s.schemas ∧ t.tables = s.tables ∧
  t.clusters = s.clusters ∧ t.jobs = s.jobs ∧
  t.permissions = s.permissions ∧ t.active_catalog = s.active_catalog

def eqExceptClusters (s t : DatabricksState) : Prop :=
  t.catalogs = s.catalogs ∧ t.schemas = s.schemas ∧ t.tables = s.tables ∧
  t.notebooks = s.notebooks ∧ t.jobs = s.jobs ∧
  t.permissions = s.permissions ∧ t.active_catalog = s.active_catalog

def eqExceptJobs (s t : DatabricksState) : Prop :=
  t.catalogs = s.catalogs ∧ t.schemas = s.schemas ∧ t.tables = s.tables ∧
  t.notebooks = s.notebooks ∧ t.clusters = s.clusters ∧
  t.permissions = s.permissions ∧ t.active_catalog = s.active_catalog

def eqExceptPermissions (s t : DatabricksState) : Prop :=
  t.catalogs = s.catalogs ∧ t.schemas = s.schemas ∧ t.tables = s.tables ∧
  t.notebooks = s.notebooks ∧ t.clusters = s.clusters ∧ t.jobs = s.jobs ∧
  t.active_catalog = s.active_catalog

/-- The collections a successful call of each tool must leave unchanged:
every field except the one(s) its contract names.  Read-only tools leave
the whole state unchanged. -/
def frameOK : ToolCall → DatabricksState → DatabricksState → Prop
  | .use_catalog _, s, t => eqExceptActive s t
  | .list_catalogs, s, t => t = s
  | .create_catalog _, s, t => eqExceptCatalogs s t
  | .list_schemas _, s, t => t = s
  | .create_schema _, s, t => eqExceptSchemas s t
  | .list_tables _, s, t => t = s
  | .create_table _, s, t => eqExceptTables s t
  | .insert_into_table _, s, t => eqExceptTables s t
  | .query_table _, s, t => t = s
  | .grant_privilege _, s, t => eqExceptPermissions s t
  | .revoke_privilege _, s, t => eqExceptPermissions s t
  | .create_notebook _, s, t => eqExceptNotebooks s t
  | .list_notebooks, s, t => t = s
  | .run_notebook_cell _, s, t => eqExceptNotebooks s t
  | .create_visualization _, s, t => eqExceptNotebooks s t
  | .list_clusters, s, t => t = s
  | .create_cluster _, s, t => eqExceptClusters s t
  | .attach_to_cluster _, s, t => eqExceptNotebooks s t
  | .list_jobs, s, t => t = s
  | .create_job _, s, t => eqExceptJobs s t

/-- Master case analysis: every tool call either errors and returns the
input state itself, or succeeds and satisfies its frame. -/
theorem runTool_cases (g : Gen) (s : DatabricksState) (c : ToolCall) :
    ((runTool g s c).1 = s ∧ isError (runTool g s c).2 = true) ∨
    (frameOK c s (runTool g s c).1 ∧ isError (runTool g s c).2 = false) := by
  cases c <;>
    simp only [runTool, use_catalog, list_catalogs, create_catalog,
      list_schemas, create_schema, list_tables, create_table,
      insert_into_table, query_table, grant_privilege, revoke_privilege,
      create_notebook, list_notebooks, run_notebook_cell,
      create_visualization, list_clusters, create_cluster,
      attach_to_cluster, list_jobs, create_job] <;>
    repeat' split
  all_goals
    simp [isError, frameOK, eqExceptActive, eqExceptCatalogs,
      eqExceptSchemas, eqExceptTables, eqExceptNotebooks, eqExceptClusters,
      eqExceptJobs, eqExceptPermissions]

theorem runTool_error_eq (g : Gen) (s : DatabricksState) (c : ToolCall)
    (h : isError (runTool g s c).2 = true) : (runTool g s c).1 = s := by
  rcases runTool_cases g s c with ⟨h1, _⟩ | ⟨_, h2⟩
  · exact h1
  · rw [h] at h2
    exact absurd h2 (by simp)

/-! ## Fixtures used by witness theorems -/

def wCatalog : Catalog := { name := "main", owner := "admin" }

def wState : DatabricksState := { catalogs := [("main", wCatalog)] }

def wGen : Gen := { now := 5, fresh := "id-1" }

/-- C1 -- For every tool, an error response comes with the input state
returned unchanged, and a successful response comes with a state whose
collections other than the one(s) the tool contract names are all equal
to the input state's. -/
theorem tool_error_unchanged_or_frame (g : Gen) (s : DatabricksState)
    (c : ToolCall) :
    (isError (runTool g s c).2 = true → (runTool g s c).1 = s) ∧
    (isError (runTool g s c).2 = false → frameOK c s (runTool g s c).1) := by
  rcases runTool_cases g s c with ⟨h1, h2⟩ | ⟨h1, h2⟩
  · refine ⟨fun _ => h1, fun hf => ?_⟩
    rw [h2] at hf
    exact absurd hf (by simp)
  · refine ⟨fun ht => ?_, fun _ => h1⟩
    rw [h2] at ht
    exact absurd ht (by simp)

/-- Witness for C1: a blank-argument `use_catalog` call errors and leaves
the one-catalog state unchanged; a valid call succeeds and satisfies the
`use_catalog` frame. -/
theorem tool_error_unchanged_or_frame_witness :
    (runTool wGen wState (.use_catalog { catalog_name := none })).1 =
      wState ∧
    frameOK (.use_catalog { catalog_name := some "main" }) wState
      (runTool wGen wState (.use_catalog { catalog_name := some "main" })).1 :=
  ⟨(tool_error_unchanged_or_frame wGen wState
      (.use_catalog { catalog_name := none })).1 (by decide),
   (tool_error_unchanged_or_frame wGen wState
      (.use_catalog { catalog_name := some "main" })).2 (by decide)⟩

/-! ## Insert-into-table lemmas and claims C4, C10 -/

theorem buildRows_ok (names : List String) (rows : List (List Value))
    (h : ∀ r ∈ rows, r.length = names.length) :
    buildRows names rows = .ok (rows.map (fun r => dictOf (names.zip r))) := by
  induction rows with
  | nil => rfl
  | cons r rest ih =>
      have hr : r.length = names.length := h r (by simp)
      have hrest := ih (fun r2 h2 => h r2 (by simp [h2]))
      simp [buildRows, hr, hrest]

theorem buildRows_error (names : List String) (rows : List (List Value))
    (h : ∃ r ∈ rows, r.length ≠ names.length) :
    ∃ n, buildRows names rows = .error n := by
  induction rows with
  | nil => simp at h
  | cons r rest ih =>
      by_cases hr : r.length = names.length
      · have hrest : ∃ r2 ∈ rest, r2.length ≠ names.length := by
          rcases h with ⟨r2, hmem, hne⟩
          rcases List.mem_cons.mp hmem with rfl | h2
          · exact absurd hr hne
          · exact ⟨r2, h2, hne⟩
        obtain ⟨n, hn⟩ := ih hrest
        refine ⟨n, ?_⟩
        simp [buildRows, hr, hn]
      · exact ⟨r.length, by simp [buildRows, hr]⟩

/-- C4 -- `insert_into_table` on an existing table with a non-empty row
list is atomic: one malformed row makes the whole call an error with the
state unchanged; otherwise every row is zipped positionally onto the
column names in column order, all rows are appended, and `rows_inserted`
is the number of rows given. -/
theorem insert_into_table_atomic (s : DatabricksState)
    (a : InsertIntoTableArgs) (cn sn tn : String)
    (h1 : a.catalog_name = some cn) (h2 : cn ≠ "")
    (h3 : a.schema_name = some sn) (h4 : sn ≠ "")
    (h5 : a.table_name = some tn) (h6 : tn ≠ "")
    (tbl : Table) (h7 : dlookup s.tables (getTableKey cn sn tn) = some tbl)
    (h8 : a.rows ≠ []) :
    ((∃ r ∈ a.rows, r.length ≠ tbl.columns.length) →
      (insert_into_table s a).1 = s ∧
      isError (insert_into_table s a).2 = true) ∧
    ((∀ r ∈ a.rows, r.length = tbl.columns.length) →
      insert_into_table s a =
        ({ s with tables := dinsert s.tables (getTableKey cn sn tn) { tbl with
            data := tbl.data ++ a.rows.map (fun r =>
              dictOf ((tbl.columns.map Column.name).zip r)) } },
         .okInsert a.rows.length)) := by
  have hnames : (tbl.columns.map Column.name).length = tbl.columns.length :=
    List.length_map _ _
  constructor
  · intro hbad
    obtain ⟨n, hn⟩ := buildRows_error (tbl.columns.map Column.name) a.rows
      (by rcases hbad with ⟨r, hm, hne⟩; exact ⟨r, hm, by rw [hnames]; exact hne⟩)
    simp [insert_into_table, h1, h3, h5, isBlank, h2, h4, h6, h7, h8, hn,
      isError]
  · intro hgood
    have hok := buildRows_ok (tbl.columns.map Column.name) a.rows
      (fun r hr => by rw [hnames]; exact hgood r hr)
    simp [insert_into_table, h1, h3, h5, isBlank, h2, h4, h6, h7, h8, hok,
      List.length_map]

def wUsersTable : Table :=
  { catalog_name := "acme", schema_name := "default", table_name := "users",
    columns := [{ name := "id", type := "INT" },
                { name := "name", type := "STRING" }],
    owner := "admin" }

def wTableState : DatabricksState :=
  { tables := [("acme.default.users", wUsersTable)] }

def wInsertArgs : InsertIntoTableArgs :=
  { catalog_name := some "acme", schema_name := some "default",
    table_name := some "users",
    rows := [[.vInt 1, .vStr "Alice"], [.vInt 2, .vStr "Bob"]] }

/-- Witness for C4: inserting two well-formed 2-value rows into the
2-column `users` table appends both rows and reports `rows_inserted = 2`. -/
theorem insert_into_table_atomic_witness :
    insert_into_table wTableState wInsertArgs =
      ({ wTableState with tables := (dinsert wTableState.tables
          "acme.default.users" { wUsersTable with
            data := wUsersTable.data ++ wInsertArgs.rows.map (fun r =>
              dictOf ((wUsersTable.columns.map Column.name).zip r)) }) },
       .okInsert 2) :=
  (insert_into_table_atomic wTableState wInsertArgs "acme" "default" "users"
    rfl (by decide) rfl (by decide) rfl (by decide) wUsersTable (by decide)
    (by decide)).2 (by decide)

/-- C10 -- with the table present and the names given, a missing or empty
`rows` argument yields the error "No rows provided" with the state
unchanged, never a successful no-op. -/
theorem insert_into_table_empty_rows (s : DatabricksState)
    (a : InsertIntoTableArgs) (cn sn tn : String)
    (h1 : a.catalog_name = some cn) (h2 : cn ≠ "")
    (h3 : a.schema_name = some sn) (h4 : sn ≠ "")
    (h5 : a.table_name = some tn) (h6 : tn ≠ "")
    (tbl : Table) (h7 : dlookup s.tables (getTableKey cn sn tn) = some tbl)
    (h8 : a.rows = []) :
    insert_into_table s a = (s, .error "No rows provided") := by
  simp [insert_into_table, h1, h3, h5, isBlank, h2, h4, h6, h7, h8]

/-- Witness for C10: an insert call naming the `users` table with an empty
row list returns the error and the unchanged state. -/
theorem insert_into_table_empty_rows_witness :
    insert_into_table wTableState { wInsertArgs with rows := [] } =
      (wTableState, .error "No rows provided") :=
  insert_into_table_empty_rows wTableState { wInsertArgs with rows := [] }
    "acme" "default" "users" rfl (by decide) rfl (by decide) rfl (by decide)
    wUsersTable (by decide) rfl

/-! ## Permission identity, claim C5 -/

/-- C5 -- permission identity is the 3-tuple (principal, privilege,
securable_name): `grant_privilege` errors with the state unchanged exactly
when some existing permission matches on that tuple (the grant arguments'
`securable_type` is never compared), and `revoke_privilege` removes every
permission matching the tuple, erroring with the state unchanged exactly
when none does. -/
theorem permission_three_tuple_identity (s : DatabricksState)
    (pv st sn pr : String) (hpv : pv ≠ "") (hst : st ≠ "") (hsn : sn ≠ "")
    (hpr : pr ≠ "") :
    (s.permissions.any (matchesPerm pr sn pv) = true →
      grant_privilege s ⟨some pv, some st, some sn, some pr⟩ =
        (s, .error "Permission already granted") ∧
      revoke_privilege s ⟨some pv, some sn, some pr⟩ =
        ({ s with permissions := s.permissions.filter (fun p =>
            !(matchesPerm pr sn pv p)) }, .okRevoke)) ∧
    (s.permissions.any (matchesPerm pr sn pv) = false →
      grant_privilege s ⟨some pv, some st, some sn, some pr⟩ =
        ({ s with permissions := s.permissions ++
            [{ principal := pr, privilege := pv, securable_type := st,
               securable_name := sn }] },
         .okGrant (pv ++ " on " ++ sn ++ " to " ++ pr)) ∧
      revoke_privilege s ⟨some pv, some sn, some pr⟩ =
        (s, .error "Permission not found")) := by
  constructor
  · intro h
    obtain ⟨p, hp, hmp⟩ := List.any_eq_true.mp h
    have hne : ((s.permissions.filter (fun q =>
        !(matchesPerm pr sn pv q))).length ≠ s.permissions.length) := by
      intro he
      have := (length_filter_eq_iff _ _).mp he p hp
      simp [hmp] at this
    constructor
    · simp [grant_privilege, isBlank, hpv, hst, hsn, hpr, h]
    · simp [revoke_privilege, isBlank, hpv, hsn, hpr, hne]
  · intro h
    have hall : ∀ p ∈ s.permissions, matchesPerm pr sn pv p = false := by
      intro p hp
      by_contra hcon
      have : matchesPerm pr sn pv p = true := by
        cases hb : matchesPerm pr sn pv p
        · exact absurd hb hcon
        · rfl
      exact absurd (List.any_eq_true.mpr ⟨p, hp, this⟩) (by simp [h])
    have hlen : ((s.permissions.filter (fun q =>
        !(matchesPerm pr sn pv q))).length = s.permissions.length) :=
      (length_filter_eq_iff _ _).mpr (fun p hp => by simp [hall p hp])
    constructor
    · simp [grant_privilege, isBlank, hpv, hst, hsn, hpr, h]
    · simp [revoke_privilege, isBlank, hpv, hsn, hpr, hlen]

def wPerm : Permission :=
  { principal := "analysts", privilege := "SELECT",
    securable_type := "TABLE", securable_name := "acme.default.users" }

def wPermState : DatabricksState := { permissions := [wPerm] }

/-- Witness for C5: with one SELECT permission present, re-granting the
same (principal, privilege, securable_name) tuple under a different
securable_type errors, and revoking the tuple removes the permission. -/
theorem permission_three_tuple_identity_witness :
    grant_privilege wPermState
        ⟨some "SELECT", some "SCHEMA", some "acme.default.users",
         some "analysts"⟩ =
      (wPermState, .error "Permission already granted") ∧
    revoke_privilege wPermState
        ⟨some "SELECT", some "acme.default.users", some "analysts"⟩ =
      ({ wPermState with permissions := (wPermState.permissions.filter
          (fun p => !(matchesPerm "analysts" "acme.default.users"
            "SELECT" p))) }, .okRevoke) :=
  (permission_three_tuple_identity wPermState "SELECT" "SCHEMA"
    "acme.default.users" "analysts" (by decide) (by decide) (by decide)
    (by decide)).1 (by decide)

/-! ## Query-table read-only full scan, claim C6 -/

/-- C6 -- with the table present and the names given, `query_table`
returns the state unchanged together with the table's entire row list and
its length, and the response is identical for every value of the optional
`query` argument (the filter is never applied). -/
theorem query_table_full_scan (s : DatabricksState) (a : QueryTableArgs)
    (cn sn tn : String)
    (h1 : a.catalog_name = some cn) (h2 : cn ≠ "")
    (h3 : a.schema_name = some sn) (h4 : sn ≠ "")
    (h5 : a.table_name = some tn) (h6 : tn ≠ "")
    (tbl : Table) (h7 : dlookup s.tables (getTableKey cn sn tn) = some tbl) :
    query_table s a = (s, .queryResult tbl.data tbl.data.length) ∧
    (∀ q : Option String,
      query_table s { a with query := q } = query_table s a) := by
  constructor
  · simp [query_table, h1, h3, h5, isBlank, h2, h4, h6, h7]
  · intro q
    simp [query_table, h1, h3, h5, isBlank, h2, h4, h6, h7]

def wDataTable : Table :=
  { wUsersTable with data := [[("id", .vInt 1), ("name", .vStr "Alice")]] }

def wDataState : DatabricksState :=
  { tables := [("acme.default.users", wDataTable)] }

/-- Witness for C6: querying the one-row `users` table returns its row
list and count, with or without a filter query. -/
theorem query_table_full_scan_witness :
    query_table wDataState
        { catalog_name := some "acme", schema_name := some "default",
          table_name := some "users", query := some "id = 1" } =
      (wDataState, .queryResult wDataTable.data wDataTable.data.length) :=
  (query_table_full_scan wDataState
    { catalog_name := some "acme", schema_name := some "default",
      table_name := some "users", query := some "id = 1" }
    "acme" "default" "users" rfl (by decide) rfl (by decide) rfl (by decide)
    wDataTable (by decide)).1

/-! ## Cluster creation never consults the policy ceiling, claim C7 -/

/-- C7 -- `create_cluster` with a non-empty name always succeeds and the
created cluster starts in lifecycle state "RUNNING", for every input
state — the `Policy` cluster-count ceiling is never consulted. -/
theorem create_cluster_always_succeeds_running (g : Gen)
    (s : DatabricksState) (a : CreateClusterArgs)
    (h : isBlank a.name = false) :
    isError (create_cluster g s a).2 = false ∧
    (create_cluster g s a).2 = .okCluster g.fresh ∧
    dlookup (create_cluster g s a).1.clusters g.fresh =
      some { cluster_id := g.fresh, name := a.name.getD "",
             state := "RUNNING", node_type := a.node_type.getD "i3.xlarge",
             num_workers := a.num_workers.getD 1,
             spark_version := a.spark_version.getD "13.3.x-scala2.12",
             created_at := g.now } := by
  refine ⟨?_, ?_, ?_⟩ <;>
    simp [create_cluster, h, isError, dlookup_dinsert_self]

/-- A state already holding 100 clusters, i.e. at the policy ceiling. -/
def wFullClusterState : DatabricksState :=
  { clusters := (List.range 100).map (fun i =>
      ("c" ++ toString i,
       { cluster_id := "c" ++ toString i, name := "n" ++ toString i,
         state := "RUNNING", node_type := "i3.xlarge", num_workers := 1,
         spark_version := "13.3.x-scala2.12" })) }

/-- Witness for C7: the policy check rejects the 100-cluster state, yet
`create_cluster` still succeeds there and the new cluster is RUNNING. -/
theorem create_cluster_always_succeeds_running_witness :
    (validate_cluster_count wFullClusterState).1 = false ∧
    (isError (create_cluster wGen wFullClusterState
        { name := some "etl" }).2 = false ∧
     (create_cluster wGen wFullClusterState { name := some "etl" }).2 =
       .okCluster wGen.fresh ∧
     dlookup (create_cluster wGen wFullClusterState
         { name := some "etl" }).1.clusters wGen.fresh =
       some { cluster_id := wGen.fresh, name := "etl", state := "RUNNING",
              node_type := "i3.xlarge", num_workers := 1,
              spark_version := "13.3.x-scala2.12",
              created_at := wGen.now }) :=
  ⟨by decide,
   create_cluster_always_succeeds_running wGen wFullClusterState
     { name := some "etl" } (by decide)⟩

/-! ## Environment logging, claim C8 -/

/-- C8 -- for a registered tool, `execute_tool` appends exactly one
snapshot and exactly one `tool_call` history entry, even when the tool
responds with a validation error (the appended snapshot then equals the
previous state); an unknown tool name, or a tool that raises, appends
neither and leaves the current state unchanged. -/
theorem execute_tool_logging (g : Gen) (env : Env) (c : ToolCall)
    (n m : String) :
    (executeTool g env (.known c)).1.state = (runTool g env.state c).1 ∧
    (executeTool g env (.known c)).1.state_snapshots =
      env.state_snapshots ++ [(runTool g env.state c).1] ∧
    (executeTool g env (.known c)).1.conversation_history =
      env.conversation_history ++
        [.tool_call (toolName c) c (runTool g env.state c).2] ∧
    (executeTool g env (.known c)).2 = (runTool g env.state c).2 ∧
    (isError (runTool g env.state c).2 = true →
      (runTool g env.state c).1 = env.state) ∧
    executeTool g env (.unknown n) = (env, .error ("Unknown tool: " ++ n)) ∧
    dispatchOutcome env n c (.exn m) =
      (env, .error ("Tool execution failed: " ++ m)) :=
  ⟨rfl, rfl, rfl, rfl, runTool_error_eq g env.state c, rfl, rfl⟩

/-- Witness for C8: a duplicate `create_catalog` call through the
environment errors, yet still appends a snapshot equal to the previous
state. -/
theorem execute_tool_logging_witness :
    (executeTool wGen (Env.init wState)
        (.known (.create_catalog { catalog_name := some "main" }))).1.state_snapshots =
      [wState, wState] :=
  by
    have h := execute_tool_logging wGen (Env.init wState)
      (.create_catalog { catalog_name := some "main" }) "zap" "boom"
    rw [h.2.1, h.2.2.2.2.1 (by decide)]
    rfl

/-! ## Tools never delete resources, claim C9 -/

/-- Whether a call is a `revoke_privilege` call (the one tool allowed to
drop permissions). -/
def isRevokeCall : ToolCall → Bool
  | .revoke_privilege _ => true
  | _ => false

/-- Resource growth between two states: every key of each of the six
mappings survives, and no catalog, schema, cluster or job binding changes
value. -/
def growsDicts (s t : DatabricksState) : Prop :=
  (∀ k, dmem s.catalogs k = true → dmem t.catalogs k = true) ∧
  (∀ k, dmem s.schemas k = true → dmem t.schemas k = true) ∧
  (∀ k, dmem s.tables k = true → dmem t.tables k = true) ∧
  (∀ k, dmem s.notebooks k = true → dmem t.notebooks k = true) ∧
  (∀ k, dmem s.clusters k = true → dmem t.clusters k = true) ∧
  (∀ k, dmem s.jobs k = true → dmem t.jobs k = true) ∧
  (∀ k v, dlookup s.catalogs k = some v → dlookup t.catalogs k = some v) ∧
  (∀ k v, dlookup s.schemas k = some v → dlookup t.schemas k = some v) ∧
  (∀ k v, dlookup s.clusters k = some v → dlookup t.clusters k = some v) ∧
  (∀ k v, dlookup s.jobs k = some v → dlookup t.jobs k = some v)

/-- C9 -- no tool deletes: assuming the generated identifier is fresh
(uuid4), every tool's output state keeps every key of the six mappings,
never rebinds an existing catalog, schema, cluster or job key, and only
`revoke_privilege` can remove permissions (all other tools at most append
to the permission list). -/
theorem growsDicts_refl (s : DatabricksState) : growsDicts s s :=
  ⟨fun _ h => h, fun _ h => h, fun _ h => h, fun _ h => h, fun _ h => h,
   fun _ h => h, fun _ _ h => h, fun _ _ h => h, fun _ _ h => h,
   fun _ _ h => h⟩

theorem tools_never_delete (g : Gen) (s : DatabricksState) (c : ToolCall)
    (hc : dmem s.clusters g.fresh = false)
    (hj : dmem s.jobs g.fresh = false) :
    growsDicts s (runTool g s c).1 ∧
    (isRevokeCall c = false →
      ∃ u, (runTool g s c).1.permissions = s.permissions ++ u) := by
  cases c
  case grant_privilege a =>
    simp only [runTool, grant_privilege]
    split
    · exact ⟨growsDicts_refl s, fun _ => ⟨[], by simp⟩⟩
    · split
      · exact ⟨growsDicts_refl s, fun _ => ⟨[], by simp⟩⟩
      · exact ⟨growsDicts_refl s, fun _ => ⟨_, rfl⟩⟩
  case revoke_privilege a =>
    simp only [runTool, revoke_privilege]
    split
    · exact ⟨growsDicts_refl s, fun h => absurd h (by simp [isRevokeCall])⟩
    · split
      · exact ⟨growsDicts_refl s,
          fun h => absurd h (by simp [isRevokeCall])⟩
      · exact ⟨growsDicts_refl s,
          fun h => absurd h (by simp [isRevokeCall])⟩
  all_goals
    simp only [runTool, isRevokeCall, use_catalog, list_catalogs,
      create_catalog, list_schemas, create_schema, list_tables,
      create_table, insert_into_table, query_table, create_notebook,
      list_notebooks, run_notebook_cell, create_visualization,
      list_clusters, create_cluster, attach_to_cluster, list_jobs,
      create_job] <;>
    repeat' split
  all_goals
    refine ⟨⟨?_, ?_, ?_, ?_, ?_, ?_, ?_, ?_, ?_, ?_⟩, ?_⟩ <;>
      first
        | exact fun k h => h
        | exact fun k v h => h
        | exact fun k h => dmem_dinsert_of _ _ h
        | exact fun k v h => dictKeeps_dinsert_fresh _ (by simp_all) k v h
        | exact fun _ => ⟨[], by simp⟩

def wSchemaArgs : CreateSchemaArgs :=
  { catalog_name := some "main", schema_name := some "default" }

/-- Witness for C9: creating a schema in the one-catalog state keeps the
catalog binding intact and leaves the permission list unextended. -/
theorem tools_never_delete_witness :
    growsDicts wState (runTool wGen wState (.create_schema wSchemaArgs)).1 ∧
    (isRevokeCall (.create_schema wSchemaArgs) = false →
      ∃ u, (runTool wGen wState
          (.create_schema wSchemaArgs)).1.permissions =
        wState.permissions ++ u) :=
  tools_never_delete wGen wState (.create_schema wSchemaArgs)
    (by decide) (by decide)

/-! ## Evaluation score accounting, claims C2 and C3

`evaluate_task` counts one check per goal entity (`total_checks`), but the
milestone list it divides by that total gains an "All required permissions
granted" entry even when the goal has no permissions, and up to two
entries per goal table carrying data.  The two theorems below evaluate
the embedded code at inputs where this breaks the documented
`score: float  # 0.0-1.0` accounting. -/

/-- C2 -- at the one-catalog goal state, evaluating a final state
identical to the goal yields `success = True` as claimed, but
`score = 2.0`, not the claimed 1.0: the permissions milestone is awarded
even though the goal names no permissions, so two milestones are divided
by one goal entity. -/
theorem evaluate_identical_goal_score_two :
    (evaluate_task wState wState).success = true ∧
    (evaluate_task wState wState).milestones_achieved =
      ["Catalog \x27main\x27 exists", "All required permissions granted"] ∧
    (evaluate_task wState wState).score = 2 := by
  refine ⟨by decide, by decide, ?_⟩
  show (if (0 : Nat) < 1 + 0 + 0 + 0 + 0 then ((2 : Nat) : ℚ) / ((1 : Nat) : ℚ) else 1) = 2
  norm_num

/-- C3 -- with the one-catalog goal and an empty final state,
`evaluate_task` returns `success = False` and lists the catalog under
`missing_catalogs` as claimed, but its score is exactly 1.0 (the
unconditional permissions milestone is the only one counted, and the goal
has one entity), contradicting the claimed non-1.0 score. -/
theorem evaluate_missing_catalog_score_one :
    (evaluate_task {} wState).success = false ∧
    (evaluate_task {} wState).differences.missing_catalogs = ["main"] ∧
    (evaluate_task {} wState).score = 1 := by
  refine ⟨by decide, by decide, ?_⟩
  show (if (0 : Nat) < 1 + 0 + 0 + 0 + 0 then ((1 : Nat) : ℚ) / ((1 : Nat) : ℚ) else 1) = 1
  norm_num

end SaaSBench
